import Mathlib

/-!
# Verification of the compound-interest calculator (`script.js`)

Shallow embedding of the five solver functions and the form-controller
validation/dispatch logic of `script.js`.  JS double-precision numbers are
idealised as real numbers (`ℝ`): `Math.pow` becomes `Real.rpow`, `Math.log`
becomes `Real.log`, and the JS checks `isNaN(x) || !isFinite(x)` are
identically false on `ℝ`, which has no NaN or infinity.  A JS result object
`{error: …} / {message: …} / {value: …}` becomes a structure with three
optional fields, exactly one of which is set by each return site.
-/

open scoped Classical

/-- Mirrors the JS result object: each of the three fields is either present
(`some`) or absent (`none`), as on a JS object literal. -/
structure Result where
  error : Option String
  message : Option String
  value : Option ℝ

/-- JS `{ error: e }`. -/
def errR (e : String) : Result := ⟨some e, none, none⟩

/-- JS `{ message: m }`. -/
def msgR (m : String) : Result := ⟨none, some m, none⟩

/-- JS `{ value: v }`. -/
def valR (v : ℝ) : Result := ⟨none, none, some v⟩

/-- In the real-number idealisation of JS doubles there is no NaN and no
infinity, so the JS guard `isNaN(x) || !isFinite(x)` is identically false. -/
def jsNonFinite (_ : ℝ) : Bool := false

/- Error and advisory message literals of `script.js`, verbatim. -/

def amountGuardError : String :=
  "Principal, Rate, Time, and Frequency must be positive. Rate can be zero."

def principalGuardError : String :=
  "Amount, Rate, Time, and Frequency must be positive. Rate can be zero."

def rateGuardError : String :=
  "Amount, Principal, Time, and Frequency must be positive."

def rateShrinkError : String :=
  "Final Amount (A) cannot be less than Principal (P) when calculating rate."

def rateBaseNegError : String :=
  "Cannot calculate rate with negative A/P ratio (should not happen with positive A, P)."

def rateNonFiniteError : String :=
  "Could not calculate a valid rate. Check input values."

def timeGuardError : String :=
  "Amount, Principal, Rate, and Frequency must be positive for time calculation."

def timeShrinkError : String :=
  "Final Amount (A) cannot be less than Principal (P) if rate is positive."

def timeNoGrowthError : String :=
  "Rate must be greater than 0 for Amount to grow."

def timeDivZeroError : String :=
  "Cannot calculate time. Possible division by zero (check rate and frequency)."

def timeRatioError : String :=
  "Cannot calculate time with non-positive A/P ratio."

def timeLogError : String :=
  "Cannot calculate time due to log of non-positive value in denominator."

def timeNonFiniteError : String :=
  "Could not calculate a valid time. Check input values (e.g. A < P with positive rate)."

def frequencyAdvisory : String :=
  "Solving for Compounding Frequency (n) directly is mathematically complex and not supported by this calculator. Consider testing different \x27n\x27 values by solving for \x27A\x27."

/-- `calculateFinalAmount(P, R_annual, T_years, n_compound_freq)` from
`script.js` lines 3–10. -/
noncomputable def calculateFinalAmount (P R_annual T_years n_compound_freq : ℝ) : Result :=
  if P ≤ 0 ∨ R_annual < 0 ∨ T_years ≤ 0 ∨ n_compound_freq ≤ 0 then
    errR amountGuardError
  else
    let R_decimal := R_annual / 100
    let A := P * (1 + R_decimal / n_compound_freq) ^ (n_compound_freq * T_years)
    valR A

/-- `calculatePrincipal(A, R_annual, T_years, n_compound_freq)` from
`script.js` lines 12–19. -/
noncomputable def calculatePrincipal (A R_annual T_years n_compound_freq : ℝ) : Result :=
  if A ≤ 0 ∨ R_annual < 0 ∨ T_years ≤ 0 ∨ n_compound_freq ≤ 0 then
    errR principalGuardError
  else
    let R_decimal := R_annual / 100
    let P := A / (1 + R_decimal / n_compound_freq) ^ (n_compound_freq * T_years)
    valR P

/-- `calculateRate(A, P, T_years, n_compound_freq)` from `script.js`
lines 21–46. -/
noncomputable def calculateRate (A P T_years n_compound_freq : ℝ) : Result :=
  if A ≤ 0 ∨ P ≤ 0 ∨ T_years ≤ 0 ∨ n_compound_freq ≤ 0 then
    errR rateGuardError
  else if A < P then
    errR rateShrinkError
  else
    let base := A / P
    let exponent := 1 / (n_compound_freq * T_years)
    if base < 0 then
      errR rateBaseNegError
    else
      let term := base ^ exponent
      let R_decimal := n_compound_freq * (term - 1)
      if jsNonFinite R_decimal then
        errR rateNonFiniteError
      else
        valR (R_decimal * 100)

/-- `calculateTime(A, P, R_annual, n_compound_freq)` from `script.js`
lines 48–81. -/
noncomputable def calculateTime (A P R_annual n_compound_freq : ℝ) : Result :=
  if A ≤ 0 ∨ P ≤ 0 ∨ R_annual ≤ 0 ∨ n_compound_freq ≤ 0 then
    errR timeGuardError
  else if A < P ∧ R_annual > 0 then
    errR timeShrinkError
  else if A = P ∧ R_annual > 0 then
    valR 0
  else if A > P ∧ R_annual = 0 then
    errR timeNoGrowthError
  else
    let R_decimal := R_annual / 100
    let numerator := Real.log (A / P)
    let denominator := n_compound_freq * Real.log (1 + R_decimal / n_compound_freq)
    if denominator = 0 then
      errR timeDivZeroError
    else if A / P ≤ 0 then
      errR timeRatioError
    else if 1 + R_decimal / n_compound_freq ≤ 0 then
      errR timeLogError
    else
      let T_years := numerator / denominator
      if jsNonFinite T_years then
        errR timeNonFiniteError
      else
        valR T_years

/-- `calculateFrequency(A, P, R_annual, T_years)` from `script.js`
lines 83–93: always the advisory message. -/
def calculateFrequency (_A _P _R_annual _T_years : ℝ) : Result :=
  msgR frequencyAdvisory

/-- C1: for every input, `calculateFinalAmount` fails (with its InvalidInput
message) exactly when P ≤ 0, R < 0, T ≤ 0 or n ≤ 0, and otherwise returns the
value A = P·(1 + (R/100)/n)^(n·T). -/
theorem calculateFinalAmount_spec (P R T n : ℝ) :
    ((∃ e, calculateFinalAmount P R T n = errR e) ↔ (P ≤ 0 ∨ R < 0 ∨ T ≤ 0 ∨ n ≤ 0)) ∧
    (0 < P ∧ 0 ≤ R ∧ 0 < T ∧ 0 < n →
      calculateFinalAmount P R T n = valR (P * (1 + (R / 100) / n) ^ (n * T))) := by
  by_cases h : P ≤ 0 ∨ R < 0 ∨ T ≤ 0 ∨ n ≤ 0
  · refine ⟨⟨fun _ => h, fun _ => ⟨amountGuardError, ?_⟩⟩, ?_⟩
    · rw [calculateFinalAmount, if_pos h]
    · rintro ⟨hP, hR, hT, hn⟩
      rcases h with h | h | h | h <;> linarith
  · refine ⟨⟨?_, fun hh => absurd hh h⟩, fun _ => ?_⟩
    · rintro ⟨e, he⟩
      rw [calculateFinalAmount, if_neg h] at he
      simp [errR, valR] at he
    · rw [calculateFinalAmount, if_neg h]

/-- C1 witness: at (P, R, T, n) = (1000, 5, 1, 12) the guard is not taken and
the formula value is returned. -/
theorem calculateFinalAmount_spec_witness :
    calculateFinalAmount 1000 5 1 12 =
      valR (1000 * (1 + (5 / 100) / 12) ^ ((12 : ℝ) * 1)) :=
  (calculateFinalAmount_spec 1000 5 1 12).2 (by norm_num)

/-- C2: feeding the amount produced by `calculateFinalAmount` into
`calculatePrincipal` with the same R, T, n recovers `P` — exactly, in the
real-number semantics, hence a fortiori within any floating-point tolerance. -/
theorem roundTrip_amount_principal (P R T n : ℝ)
    (hP : 0 < P) (hR : 0 ≤ R) (hT : 0 < T) (hn : 0 < n) :
    ∃ A, calculateFinalAmount P R T n = valR A ∧ calculatePrincipal A R T n = valR P := by
  have hbase : 0 < 1 + (R / 100) / n := by positivity
  have hpow : 0 < (1 + (R / 100) / n) ^ (n * T) := Real.rpow_pos_of_pos hbase _
  have hA : 0 < P * (1 + (R / 100) / n) ^ (n * T) := mul_pos hP hpow
  refine ⟨P * (1 + (R / 100) / n) ^ (n * T), ?_, ?_⟩
  · rw [calculateFinalAmount, if_neg (by push_neg; exact ⟨hP, hR, hT, hn⟩)]
  · rw [calculatePrincipal, if_neg (by push_neg; exact ⟨hA, hR, hT, hn⟩)]
    have : P * (1 + (R / 100) / n) ^ (n * T) / (1 + (R / 100) / n) ^ (n * T) = P :=
      mul_div_cancel_right₀ P (ne_of_gt hpow)
    simp only [this]

/-- C2 witness: the round trip at (P, R, T, n) = (100, 0, 1, 1). -/
theorem roundTrip_amount_principal_witness :
    ∃ A, calculateFinalAmount 100 0 1 1 = valR A ∧ calculatePrincipal A 0 1 1 = valR 100 :=
  roundTrip_amount_principal 100 0 1 1 (by norm_num) (by norm_num) (by norm_num) (by norm_num)

/-- C3: `calculateRate` fails exactly when A ≤ 0, P ≤ 0, T ≤ 0, n ≤ 0 or
A < P, and otherwise returns R = 100·n·((A/P)^(1/(n·T)) − 1); in the real
semantics that value is never NaN or infinite, so the NumericDomainError
branch never fires. -/
theorem calculateRate_spec (A P T n : ℝ) :
    ((∃ e, calculateRate A P T n = errR e) ↔
      (A ≤ 0 ∨ P ≤ 0 ∨ T ≤ 0 ∨ n ≤ 0 ∨ A < P)) ∧
    (0 < A ∧ 0 < P ∧ 0 < T ∧ 0 < n ∧ P ≤ A →
      calculateRate A P T n = valR (100 * (n * ((A / P) ^ (1 / (n * T)) - 1)))) := by
  by_cases hg : A ≤ 0 ∨ P ≤ 0 ∨ T ≤ 0 ∨ n ≤ 0
  · refine ⟨⟨fun _ => ?_, fun _ => ⟨rateGuardError, ?_⟩⟩, ?_⟩
    · rcases hg with h | h | h | h
      · exact Or.inl h
      · exact Or.inr (Or.inl h)
      · exact Or.inr (Or.inr (Or.inl h))
      · exact Or.inr (Or.inr (Or.inr (Or.inl h)))
    · rw [calculateRate, if_pos hg]
    · rintro ⟨hA, hP, hT, hn, -⟩
      rcases hg with h | h | h | h <;> linarith
  · push_neg at hg
    obtain ⟨hA, hP, hT, hn⟩ := hg
    have hg' : ¬(A ≤ 0 ∨ P ≤ 0 ∨ T ≤ 0 ∨ n ≤ 0) := by push_neg; exact ⟨hA, hP, hT, hn⟩
    by_cases hAP : A < P
    · refine ⟨⟨fun _ => Or.inr (Or.inr (Or.inr (Or.inr hAP))), fun _ => ⟨rateShrinkError, ?_⟩⟩, ?_⟩
      · rw [calculateRate, if_neg hg', if_pos hAP]
      · rintro ⟨-, -, -, -, hPA⟩
        exact absurd hAP (not_lt.mpr hPA)
    · have hbase : ¬(A / P < 0) := not_lt.mpr (le_of_lt (div_pos hA hP))
      have hval : calculateRate A P T n =
          valR (n * ((A / P) ^ (1 / (n * T)) - 1) * 100) := by
        simp only [calculateRate, if_neg hg', if_neg hAP, if_neg hbase, jsNonFinite,
          Bool.false_eq_true, if_false]
      refine ⟨⟨?_, fun hh => ?_⟩, fun _ => ?_⟩
      · rintro ⟨e, he⟩
        rw [hval] at he
        simp [errR, valR] at he
      · rcases hh with h | h | h | h | h
        · exact absurd h (not_le.mpr hA)
        · exact absurd h (not_le.mpr hP)
        · exact absurd h (not_le.mpr hT)
        · exact absurd h (not_le.mpr hn)
        · exact absurd h hAP
      · rw [hval, mul_comm]

/-- C3 witness: at (A, P, T, n) = (2, 1, 1, 1) the value branch is taken. -/
theorem calculateRate_spec_witness :
    calculateRate 2 1 1 1 = valR (100 * (1 * ((2 / 1) ^ (1 / ((1 : ℝ) * 1)) - 1))) :=
  (calculateRate_spec 2 1 1 1).2 (by norm_num)

/-- The two `calculateTime` error messages that the spec classifies as
`DomainViolation`: values individually valid but jointly inconsistent
(A < P with positive rate; A > P with zero rate). -/
def isDomainViolationMsg (e : String) : Prop :=
  e = timeShrinkError ∨ e = timeNoGrowthError

/-- C4 counterexample: `calculateTime 1000 1200 0 12` does NOT fail with a
DomainViolation message — the R ≤ 0 positivity guard fires first. -/
theorem calculateTime_zeroRate_not_domainViolation :
    ¬ ∃ e, calculateTime 1000 1200 0 12 = errR e ∧ isDomainViolationMsg e := by
  have hres : calculateTime 1000 1200 0 12 = errR timeGuardError := by
    rw [calculateTime, if_pos (by norm_num)]
  rintro ⟨e, he, hdv⟩
  rw [hres] at he
  simp only [errR, Result.mk.injEq, Option.some.injEq] at he
  obtain ⟨he, -⟩ := he
  subst he
  rcases hdv with h | h <;> revert h <;> decide

/-- C4 (amended): `calculateTime 1000 1200 0 12` fails with the positivity
guard message (the InvalidInput class: "… must be positive for time
calculation"), because the R ≤ 0 check precedes any joint-consistency check. -/
theorem calculateTime_zeroRate_guardError :
    calculateTime 1000 1200 0 12 = errR timeGuardError := by
  rw [calculateTime, if_pos (by norm_num)]

/-- C5: when A = P and all of A, P, R, n are positive, `calculateTime`
returns the value 0 immediately, without reaching the logarithmic formula. -/
theorem calculateTime_equal_amounts (A P R n : ℝ)
    (hA : 0 < A) (hP : 0 < P) (hR : 0 < R) (hn : 0 < n) (hAP : A = P) :
    calculateTime A P R n = valR 0 := by
  have hg : ¬(A ≤ 0 ∨ P ≤ 0 ∨ R ≤ 0 ∨ n ≤ 0) := by
    push_neg; exact ⟨hA, hP, hR, hn⟩
  have h2 : ¬(A < P ∧ R > 0) := by
    rintro ⟨h, -⟩; exact absurd hAP (ne_of_lt h)
  rw [calculateTime, if_neg hg, if_neg h2, if_pos ⟨hAP, hR⟩]

/-- C5 witness: `calculateTime 1000 1000 5 12` returns the value 0. -/
theorem calculateTime_equal_amounts_witness :
    calculateTime 1000 1000 5 12 = valR 0 :=
  calculateTime_equal_amounts 1000 1000 5 12
    (by norm_num) (by norm_num) (by norm_num) (by norm_num) rfl

/-- C7: `calculateFrequency` always returns the advisory message, never a
numeric value and never an error. -/
theorem calculateFrequency_spec (A P R T : ℝ) :
    calculateFrequency A P R T = msgR frequencyAdvisory ∧
    (calculateFrequency A P R T).value = none ∧
    (calculateFrequency A P R T).error = none :=
  ⟨rfl, rfl, rfl⟩

/-- C9: each of the five solvers is a pure function of its arguments — two
invocations with identical inputs produce identical Results. -/
theorem solver_determinism (A P R T n : ℝ) :
    calculateFinalAmount P R T n = calculateFinalAmount P R T n ∧
    calculatePrincipal A R T n = calculatePrincipal A R T n ∧
    calculateRate A P T n = calculateRate A P T n ∧
    calculateTime A P R n = calculateTime A P R n ∧
    calculateFrequency A P R T = calculateFrequency A P R T :=
  ⟨rfl, rfl, rfl, rfl, rfl⟩

/-- C10: `calculateTime` never returns the "no growth" (A > P with R = 0),
"non-positive A/P ratio" or "log of non-positive value" errors — the initial
positivity guard makes those three branches unreachable. -/
theorem calculateTime_unreachable_errors (A P R n : ℝ) (e : String)
    (h : calculateTime A P R n = errR e) :
    e ≠ timeNoGrowthError ∧ e ≠ timeRatioError ∧ e ≠ timeLogError := by
  by_cases hg : A ≤ 0 ∨ P ≤ 0 ∨ R ≤ 0 ∨ n ≤ 0
  · rw [calculateTime, if_pos hg] at h
    simp only [errR, Result.mk.injEq, Option.some.injEq, and_self, and_true] at h
    subst h
    exact ⟨by decide, by decide, by decide⟩
  · have hg' := hg
    push_neg at hg'
    obtain ⟨hA, hP, hR, hn⟩ := hg'
    by_cases h2 : A < P ∧ R > 0
    · rw [calculateTime, if_neg hg, if_pos h2] at h
      simp only [errR, Result.mk.injEq, Option.some.injEq, and_self, and_true] at h
      subst h
      exact ⟨by decide, by decide, by decide⟩
    · by_cases h3 : A = P ∧ R > 0
      · rw [calculateTime, if_neg hg, if_neg h2, if_pos h3] at h
        simp [valR, errR] at h
      · have h4 : ¬(A > P ∧ R = 0) := by
          rintro ⟨-, h0⟩
          exact (ne_of_gt hR) h0
        have hratio : ¬(A / P ≤ 0) := not_le.mpr (div_pos hA hP)
        have hlog : ¬(1 + R / 100 / n ≤ 0) := by
          have hpos : 0 < R / 100 / n := div_pos (div_pos hR (by norm_num)) hn
          linarith
        rw [calculateTime, if_neg hg, if_neg h2, if_neg h3, if_neg h4] at h
        simp only [] at h
        by_cases hd : n * Real.log (1 + R / 100 / n) = 0
        · rw [if_pos hd] at h
          simp only [errR, Result.mk.injEq, Option.some.injEq, and_self, and_true] at h
          subst h
          exact ⟨by decide, by decide, by decide⟩
        · rw [if_neg hd, if_neg hratio, if_neg hlog] at h
          simp [jsNonFinite, valR, errR] at h

/-- C10 witness: at (A, P, R, n) = (1000, 1200, 5, 12) the solver returns the
shrink error, which is none of the three unreachable messages. -/
theorem calculateTime_unreachable_errors_witness :
    calculateTime 1000 1200 5 12 = errR timeShrinkError ∧
    (timeShrinkError ≠ timeNoGrowthError ∧ timeShrinkError ≠ timeRatioError ∧
      timeShrinkError ≠ timeLogError) := by
  have hres : calculateTime 1000 1200 5 12 = errR timeShrinkError := by
    rw [calculateTime, if_neg (by norm_num), if_pos (by norm_num)]
  exact ⟨hres, calculateTime_unreachable_errors 1000 1200 5 12 timeShrinkError hres⟩

/-- The five form fields of the calculator. -/
inductive FormField where
  | principal
  | rate
  | time
  | frequency
  | amount
deriving DecidableEq

/-- Parsed form inputs, as read by `performCalculation` (`script.js`
lines 166–170): `none` models a NaN result of `parseFloat` / `parseInt` on a
missing or non-numeric string; frequency goes through `parseInt`, hence `ℤ`. -/
structure FormValues where
  principal : Option ℝ
  rate : Option ℝ
  time : Option ℝ
  frequency : Option ℤ
  amount : Option ℝ

/-- JS `isNaN(v) || v <= 0` on a parsed float. -/
def badPositive (o : Option ℝ) : Prop :=
  match o with
  | none => True
  | some v => v ≤ 0

/-- JS `isNaN(v) || v < 0` on a parsed float. -/
def badNonNegative (o : Option ℝ) : Prop :=
  match o with
  | none => True
  | some v => v < 0

/-- JS `isNaN(n) || n <= 0` on a parsed integer. -/
def badPositiveInt (o : Option ℤ) : Prop :=
  match o with
  | none => True
  | some v => v ≤ 0

/-- `updateInputStates` (`script.js` lines 130–147): after the toggle, the
disabled state of each field — exactly the field being solved for is
disabled, all others are re-enabled. -/
def updateInputStates (solveFor : FormField) : FormField → Bool :=
  fun f => f == solveFor

/-- The validation message of each field (`script.js` lines 177–187). -/
def fieldErrorMsg : FormField → String
  | FormField.principal => "Principal (P) must be a positive number."
  | FormField.rate => "Rate (R) must be a non-negative number."
  | FormField.time => "Time (T) must be a positive number."
  | FormField.frequency => "Compounding Frequency (n) must be a positive integer."
  | FormField.amount => "Final Amount (A) must be a positive number."

/-- How each field is named at the start of its validation message. -/
def fieldLabel : FormField → String
  | FormField.principal => "Principal (P)"
  | FormField.rate => "Rate (R)"
  | FormField.time => "Time (T)"
  | FormField.frequency => "Compounding Frequency (n)"
  | FormField.amount => "Final Amount (A)"

/-- The `switch (solveForValue)` dispatch of `performCalculation`
(`script.js` lines 195–213), passing the four non-target values in each
solver's expected parameter order.  Validation has already ensured the fields
a branch reads are present, so the `getD` defaults are never consulted on a
reachable path. -/
noncomputable def dispatch (solveFor : FormField) (vals : FormValues) : Result :=
  match solveFor with
  | FormField.amount =>
      calculateFinalAmount (vals.principal.getD 0) (vals.rate.getD 0)
        (vals.time.getD 0) ((vals.frequency.getD 0 : ℤ) : ℝ)
  | FormField.principal =>
      calculatePrincipal (vals.amount.getD 0) (vals.rate.getD 0)
        (vals.time.getD 0) ((vals.frequency.getD 0 : ℤ) : ℝ)
  | FormField.rate =>
      calculateRate (vals.amount.getD 0) (vals.principal.getD 0)
        (vals.time.getD 0) ((vals.frequency.getD 0 : ℤ) : ℝ)
  | FormField.time =>
      calculateTime (vals.amount.getD 0) (vals.principal.getD 0)
        (vals.rate.getD 0) ((vals.frequency.getD 0 : ℤ) : ℝ)
  | FormField.frequency =>
      calculateFrequency (vals.amount.getD 0) (vals.principal.getD 0)
        (vals.rate.getD 0) (vals.time.getD 0)

/-- Outcome of one `performCalculation` run: either validation fails and its
message is rendered (no solver runs), or the dispatched solver result is
rendered. -/
inductive Outcome where
  | invalid (msg : String)
  | rendered (r : Result)

/-- The validation chain and dispatch of `performCalculation` (`script.js`
lines 154–213).  Each condition mirrors the JS test
`solveForValue !== f && !inputs[f].disabled && (isNaN(v) || v out of range)`,
with the disabled state as left by `updateInputStates`. -/
noncomputable def performCalculation (solveFor : FormField) (vals : FormValues) : Outcome :=
  if solveFor ≠ FormField.principal ∧ updateInputStates solveFor FormField.principal = false ∧
      badPositive vals.principal then
    Outcome.invalid (fieldErrorMsg FormField.principal)
  else if solveFor ≠ FormField.rate ∧ updateInputStates solveFor FormField.rate = false ∧
      badNonNegative vals.rate then
    Outcome.invalid (fieldErrorMsg FormField.rate)
  else if solveFor ≠ FormField.time ∧ updateInputStates solveFor FormField.time = false ∧
      badPositive vals.time then
    Outcome.invalid (fieldErrorMsg FormField.time)
  else if solveFor ≠ FormField.frequency ∧ updateInputStates solveFor FormField.frequency = false ∧
      badPositiveInt vals.frequency then
    Outcome.invalid (fieldErrorMsg FormField.frequency)
  else if solveFor ≠ FormField.amount ∧ updateInputStates solveFor FormField.amount = false ∧
      badPositive vals.amount then
    Outcome.invalid (fieldErrorMsg FormField.amount)
  else
    Outcome.rendered (dispatch solveFor vals)

/-- Spec-side reading of the validation rule: field `f`, not being the one
solved for, carries an invalid value. -/
def invalidFor (solveFor : FormField) (vals : FormValues) (f : FormField) : Prop :=
  f ≠ solveFor ∧
    match f with
    | FormField.principal => badPositive vals.principal
    | FormField.rate => badNonNegative vals.rate
    | FormField.time => badPositive vals.time
    | FormField.frequency => badPositiveInt vals.frequency
    | FormField.amount => badPositive vals.amount

/-- The fixed validation order stated by the spec. -/
def fieldOrder : List FormField :=
  [FormField.principal, FormField.rate, FormField.time, FormField.frequency, FormField.amount]

/-- The first invalid non-target field in the fixed order, if any. -/
noncomputable def firstInvalid (solveFor : FormField) (vals : FormValues) : Option FormField :=
  fieldOrder.find? fun f => decide (invalidFor solveFor vals f)

/-- C6: on a calculation request, the non-target fields are validated in the
fixed order principal, rate, time, frequency, amount; the first violated
constraint yields the validation error naming that field (its message starts
with the field label) and no solver result is rendered. -/
theorem performCalculation_validation (solveFor : FormField) (vals : FormValues) (f : FormField)
    (h : firstInvalid solveFor vals = some f) :
    performCalculation solveFor vals = Outcome.invalid (fieldErrorMsg f) ∧
    (∃ s, fieldErrorMsg f = fieldLabel f ++ s) ∧
    ∀ r, performCalculation solveFor vals ≠ Outcome.rendered r := by
  rw [firstInvalid, fieldOrder] at h
  by_cases h1 : invalidFor solveFor vals FormField.principal
  · rw [List.find?_cons_of_pos _ (by simpa using h1)] at h
    injection h with h
    subst h
    obtain ⟨hne, hbad⟩ := h1
    have hres : performCalculation solveFor vals =
        Outcome.invalid (fieldErrorMsg FormField.principal) := by
      rw [performCalculation,
        if_pos ⟨Ne.symm hne, beq_eq_false_iff_ne.mpr hne, hbad⟩]
    refine ⟨hres, ⟨" must be a positive number.", rfl⟩, fun r hr => ?_⟩
    rw [hres] at hr
    exact Outcome.noConfusion hr
  · have nc1 : ¬(solveFor ≠ FormField.principal ∧
        updateInputStates solveFor FormField.principal = false ∧
        badPositive vals.principal) := by
      rintro ⟨-, hb, hc⟩
      exact h1 ⟨beq_eq_false_iff_ne.mp hb, hc⟩
    rw [List.find?_cons_of_neg _ (by simpa using h1)] at h
    by_cases h2 : invalidFor solveFor vals FormField.rate
    · rw [List.find?_cons_of_pos _ (by simpa using h2)] at h
      injection h with h
      subst h
      obtain ⟨hne, hbad⟩ := h2
      have hres : performCalculation solveFor vals =
          Outcome.invalid (fieldErrorMsg FormField.rate) := by
        rw [performCalculation, if_neg nc1,
          if_pos ⟨Ne.symm hne, beq_eq_false_iff_ne.mpr hne, hbad⟩]
      refine ⟨hres, ⟨" must be a non-negative number.", rfl⟩, fun r hr => ?_⟩
      rw [hres] at hr
      exact Outcome.noConfusion hr
    · have nc2 : ¬(solveFor ≠ FormField.rate ∧
          updateInputStates solveFor FormField.rate = false ∧
          badNonNegative vals.rate) := by
        rintro ⟨-, hb, hc⟩
        exact h2 ⟨beq_eq_false_iff_ne.mp hb, hc⟩
      rw [List.find?_cons_of_neg _ (by simpa using h2)] at h
      by_cases h3 : invalidFor solveFor vals FormField.time
      · rw [List.find?_cons_of_pos _ (by simpa using h3)] at h
        injection h with h
        subst h
        obtain ⟨hne, hbad⟩ := h3
        have hres : performCalculation solveFor vals =
            Outcome.invalid (fieldErrorMsg FormField.time) := by
          rw [performCalculation, if_neg nc1, if_neg nc2,
            if_pos ⟨Ne.symm hne, beq_eq_false_iff_ne.mpr hne, hbad⟩]
        refine ⟨hres, ⟨" must be a positive number.", rfl⟩, fun r hr => ?_⟩
        rw [hres] at hr
        exact Outcome.noConfusion hr
      · have nc3 : ¬(solveFor ≠ FormField.time ∧
            updateInputStates solveFor FormField.time = false ∧
            badPositive vals.time) := by
          rintro ⟨-, hb, hc⟩
          exact h3 ⟨beq_eq_false_iff_ne.mp hb, hc⟩
        rw [List.find?_cons_of_neg _ (by simpa using h3)] at h
        by_cases h4 : invalidFor solveFor vals FormField.frequency
        · rw [List.find?_cons_of_pos _ (by simpa using h4)] at h
          injection h with h
          subst h
          obtain ⟨hne, hbad⟩ := h4
          have hres : performCalculation solveFor vals =
              Outcome.invalid (fieldErrorMsg FormField.frequency) := by
            rw [performCalculation, if_neg nc1, if_neg nc2, if_neg nc3,
              if_pos ⟨Ne.symm hne, beq_eq_false_iff_ne.mpr hne, hbad⟩]
          refine ⟨hres, ⟨" must be a positive integer.", rfl⟩, fun r hr => ?_⟩
          rw [hres] at hr
          exact Outcome.noConfusion hr
        · have nc4 : ¬(solveFor ≠ FormField.frequency ∧
              updateInputStates solveFor FormField.frequency = false ∧
              badPositiveInt vals.frequency) := by
            rintro ⟨-, hb, hc⟩
            exact h4 ⟨beq_eq_false_iff_ne.mp hb, hc⟩
          rw [List.find?_cons_of_neg _ (by simpa using h4)] at h
          by_cases h5 : invalidFor solveFor vals FormField.amount
          · rw [List.find?_cons_of_pos _ (by simpa using h5)] at h
            injection h with h
            subst h
            obtain ⟨hne, hbad⟩ := h5
            have hres : performCalculation solveFor vals =
                Outcome.invalid (fieldErrorMsg FormField.amount) := by
              rw [performCalculation, if_neg nc1, if_neg nc2, if_neg nc3, if_neg nc4,
                if_pos ⟨Ne.symm hne, beq_eq_false_iff_ne.mpr hne, hbad⟩]
            refine ⟨hres, ⟨" must be a positive number.", rfl⟩, fun r hr => ?_⟩
            rw [hres] at hr
            exact Outcome.noConfusion hr
          · rw [List.find?_cons_of_neg _ (by simpa using h5)] at h
            simp [List.find?] at h

/-- C6 witness: solving for amount with a negative principal entered, the
principal field is the first invalid one and its validation error is
rendered. -/
theorem performCalculation_validation_witness :
    performCalculation FormField.amount ⟨some (-1), some 5, some 1, some 12, none⟩ =
      Outcome.invalid (fieldErrorMsg FormField.principal) := by
  have hf : firstInvalid FormField.amount ⟨some (-1), some 5, some 1, some 12, none⟩ =
      some FormField.principal := by
    rw [firstInvalid, fieldOrder, List.find?_cons_of_pos]
    show decide (invalidFor FormField.amount ⟨some (-1), some 5, some 1, some 12, none⟩
      FormField.principal) = true
    rw [decide_eq_true_eq]
    exact ⟨by decide, show (-1 : ℝ) ≤ 0 by norm_num⟩
  exact (performCalculation_validation FormField.amount
    ⟨some (-1), some 5, some 1, some 12, none⟩ FormField.principal hf).1

/-- JS truthiness of an optional string field: present and non-empty. -/
def strTruthy : Option String → Bool
  | none => false
  | some s => !s.isEmpty

/-- One rendered line of the result area. -/
inductive Rendered where
  | errorLine (msg : String)
  | messageLine (msg : String)
  | valueLine (f : FormField) (v : ℝ)
  | fallbackLine

/-- The result-rendering chain of `performCalculation` (`script.js`
lines 215–241): error, else message, else value, else the generic
"unexpected error" fallback.  Numeric display formatting (`toFixed`,
rounding) is presentation-layer and not modelled. -/
noncomputable def renderResult (solveFor : FormField) (r : Result) : Rendered :=
  if strTruthy r.error then Rendered.errorLine (r.error.getD "")
  else if strTruthy r.message then Rendered.messageLine (r.message.getD "")
  else if r.value.isSome then Rendered.valueLine solveFor (r.value.getD 0)
  else Rendered.fallbackLine

/-- A solver result carries exactly one of the three fields, with a non-empty
(JS-truthy) string in the error and message cases. -/
def wellFormed (r : Result) : Prop :=
  (∃ e, r = errR e ∧ e.isEmpty = false) ∨
  (∃ m, r = msgR m ∧ m.isEmpty = false) ∨
  (∃ v, r = valR v)

lemma wellFormed_calculateFinalAmount (P R T n : ℝ) :
    wellFormed (calculateFinalAmount P R T n) := by
  rw [calculateFinalAmount]
  split
  · exact Or.inl ⟨_, rfl, by decide⟩
  · exact Or.inr (Or.inr ⟨_, rfl⟩)

lemma wellFormed_calculatePrincipal (A R T n : ℝ) :
    wellFormed (calculatePrincipal A R T n) := by
  rw [calculatePrincipal]
  split
  · exact Or.inl ⟨_, rfl, by decide⟩
  · exact Or.inr (Or.inr ⟨_, rfl⟩)

lemma wellFormed_calculateRate (A P T n : ℝ) :
    wellFormed (calculateRate A P T n) := by
  simp only [calculateRate]
  repeat' split
  all_goals
    first
      | exact Or.inl ⟨_, rfl, by decide⟩
      | exact Or.inr (Or.inr ⟨_, rfl⟩)

lemma wellFormed_calculateTime (A P R n : ℝ) :
    wellFormed (calculateTime A P R n) := by
  simp only [calculateTime]
  repeat' split
  all_goals
    first
      | exact Or.inl ⟨_, rfl, by decide⟩
      | exact Or.inr (Or.inr ⟨_, rfl⟩)

set_option maxRecDepth 4000 in
lemma wellFormed_calculateFrequency (A P R T : ℝ) :
    wellFormed (calculateFrequency A P R T) :=
  Or.inr (Or.inl ⟨_, rfl, by decide⟩)

lemma renderResult_ne_fallback (solveFor : FormField) (r : Result)
    (h : wellFormed r) : renderResult solveFor r ≠ Rendered.fallbackLine := by
  rcases h with ⟨e, rfl, he⟩ | ⟨m, rfl, hm⟩ | ⟨v, rfl⟩
  · rw [renderResult, if_pos (by simp [errR, strTruthy, he])]
    exact fun hc => Rendered.noConfusion hc
  · rw [renderResult, if_neg (by simp [msgR, strTruthy]),
      if_pos (by simp [msgR, strTruthy, hm])]
    exact fun hc => Rendered.noConfusion hc
  · rw [renderResult, if_neg (by simp [valR, strTruthy]),
      if_neg (by simp [valR, strTruthy]), if_pos (by simp [valR])]
    exact fun hc => Rendered.noConfusion hc

/-- C8: every output of each of the five solvers carries exactly one of the
three Result fields (error / message / value, with a JS-truthy string in the
first two cases), and consequently the controller's generic "unexpected
error" fallback line is unreachable for any dispatched solver output. -/
theorem solver_result_shape_no_fallback :
    (∀ P R T n : ℝ, wellFormed (calculateFinalAmount P R T n)) ∧
    (∀ A R T n : ℝ, wellFormed (calculatePrincipal A R T n)) ∧
    (∀ A P T n : ℝ, wellFormed (calculateRate A P T n)) ∧
    (∀ A P R n : ℝ, wellFormed (calculateTime A P R n)) ∧
    (∀ A P R T : ℝ, wellFormed (calculateFrequency A P R T)) ∧
    (∀ (solveFor : FormField) (vals : FormValues),
      renderResult solveFor (dispatch solveFor vals) ≠ Rendered.fallbackLine) := by
  refine ⟨wellFormed_calculateFinalAmount, wellFormed_calculatePrincipal,
    wellFormed_calculateRate, wellFormed_calculateTime,
    wellFormed_calculateFrequency, fun solveFor vals => ?_⟩
  cases solveFor <;> simp only [dispatch]
  · exact renderResult_ne_fallback _ _ (wellFormed_calculatePrincipal _ _ _ _)
  · exact renderResult_ne_fallback _ _ (wellFormed_calculateRate _ _ _ _)
  · exact renderResult_ne_fallback _ _ (wellFormed_calculateTime _ _ _ _)
  · exact renderResult_ne_fallback _ _ (wellFormed_calculateFrequency _ _ _ _)
  · exact renderResult_ne_fallback _ _ (wellFormed_calculateFinalAmount _ _ _ _)

/-- C8 witness: a concrete dispatched request does not hit the fallback. -/
theorem solver_result_shape_no_fallback_witness :
    renderResult FormField.amount
      (dispatch FormField.amount ⟨some 1000, some 5, some 1, some 12, none⟩) ≠
      Rendered.fallbackLine :=
  solver_result_shape_no_fallback.2.2.2.2.2 FormField.amount
    ⟨some 1000, some 5, some 1, some 12, none⟩
